import Mathlib

/-!
Shallow embedding of the readiness/bootstrap and streaming-gateway logic of
`nexus_pro_mac.py`. External effects (filesystem flags, subprocesses, HTTP)
are passed in explicitly as environment records; each embedded operation
returns the value the Python function returns together with a record of the
observable effects it performed.
-/

namespace NexusPro

/-- `MODEL_NAME` from the source. -/
def MODEL_NAME : String := "qwen2.5-coder:7b"

/-- `STARTUP_LOG_PATH` from the source (the expanded log-file location that the
error messages interpolate). -/
def STARTUP_LOG_PATH : String := "~/Library/Logs/NEXUS_PRO/startup.log"

/-! ## Health prober (`ollama_ok`) -/

/-- Outcome of `requests.get(f"...", timeout=2)`: either the call raised
(connection refused, timeout, DNS failure, ...) or an HTTP response came back
carrying a status code. `requests.get` returns normally for every received
response, 4xx/5xx included; it raises only on transport-level failure. -/
inductive HttpOutcome where
  | raised (e : String)
  | response (status : Nat)
deriving DecidableEq, Repr

/-- `ollama_ok`: returns `True` when the GET to `/api/tags` completes (the
source never inspects the response's status code), `False` when it raises. -/
def ollama_ok : HttpOutcome → Bool
  | .raised _ => false
  | .response _ => true

/-! ## Backend installer (`ensure_ollama_installed`) -/

/-- The environment `ensure_ollama_installed` runs in:
`ollamaOnPath` is `shutil.which("ollama")` at entry, `brewOnPath` is
`shutil.which("brew")`, `setupFlagExists` records whether
`OLLAMA_SETUP_FLAG` is present on disk from a previous run, and `brewRun` is
the outcome of `_run_logged(["brew", "install", "ollama"], timeout=3600)`:
either it raises (`.error`, e.g. `subprocess.TimeoutExpired`) or it returns a
completed process (`.ok (returncode, whichOllamaAfter)` where
`whichOllamaAfter` is `shutil.which("ollama")` re-evaluated after the
install). -/
structure InstallEnv where
  ollamaOnPath : Bool
  brewOnPath : Bool
  setupFlagExists : Bool
  brewRun : Except String (Int × Bool)
deriving Repr

/-- Observable effects of one `ensure_ollama_installed` run:
was the `brew install` subprocess invoked, was `OLLAMA_SETUP_FLAG` written,
was the manual-download page opened in the browser. -/
structure InstallEffects where
  brewInstallAttempted : Bool
  setupFlagWritten : Bool
  browserOpened : Bool
deriving DecidableEq, Repr

/-- The failure message built at the end of `ensure_ollama_installed`. -/
def installFailMsg : String :=
  "Ollama が見つかりません。初回セットアップを試みましたが完了できませんでした。\n"
    ++ "ブラウザでインストーラを開いてください: https://ollama.com/download/Ollama-darwin.zip\n"
    ++ "ログ保存先: " ++ STARTUP_LOG_PATH

/-- `ensure_ollama_installed`, line for line: fast path when `ollama` is on
the search path; else, when `brew` is available, run the install — on normal
subprocess return the flag file is written (the write sits after
`_run_logged` and before the returncode test, so it happens for success and
nonzero exit alike, but is skipped when `_run_logged` raises, because the
exception jumps to the `except` block); success requires exit code 0 and the
executable then being found. Every remaining path opens the vendor download
page and returns the structured failure message. The source never reads
`OLLAMA_SETUP_FLAG` (`setupFlagExists` is dead input). -/
def ensure_ollama_installed (env : InstallEnv) : (Bool × String) × InstallEffects :=
  if env.ollamaOnPath then
    ((true, ""), ⟨false, false, false⟩)
  else if env.brewOnPath then
    match env.brewRun with
    | .ok (rc, after) =>
        if rc = 0 ∧ after = true then
          ((true, ""), ⟨true, true, false⟩)
        else
          ((false, installFailMsg), ⟨true, true, true⟩)
    | .error _ => ((false, installFailMsg), ⟨true, false, true⟩)
  else
    ((false, installFailMsg), ⟨false, false, true⟩)

/-! ## Model provisioner (`ensure_model_ready`) -/

/-- The environment `ensure_model_ready` runs in: `models` is the first
`list_models()` result, `modelfileExists` whether the bundled `Modelfile` is
present, `readyFlagExists` whether `MODEL_READY_FLAG` is on disk from a
previous run, `createRun` the outcome of
`_run_logged(["ollama", "create", ...], timeout=3600)` (raise or returncode),
and `modelsAfter` the `list_models()` result re-queried after the create. -/
structure ModelEnv where
  models : List String
  modelfileExists : Bool
  readyFlagExists : Bool
  createRun : Except String Int
  modelsAfter : List String
deriving Repr

/-- Observable effects of one `ensure_model_ready` run. -/
structure ModelEffects where
  createInvoked : Bool
  readyFlagWritten : Bool
deriving DecidableEq, Repr

/-- Failure message when the bundled Modelfile is absent. -/
def bundleMissingMsg : String :=
  "同梱モデルが見つかりません。\nログ保存先: " ++ STARTUP_LOG_PATH

/-- Failure message when the ready marker already exists but the model is
still unregistered. -/
def alreadyAttemptedMsg : String :=
  "モデル『" ++ MODEL_NAME ++ "』が未登録ですが初回自動準備は実施済みです。\n"
    ++ "ログ保存先: " ++ STARTUP_LOG_PATH

/-- Failure message when `ollama create` exits nonzero. -/
def createFailedMsg : String :=
  "モデル準備に失敗しました。\nログ保存先: " ++ STARTUP_LOG_PATH

/-- Failure message when `ollama create` raises. -/
def createRaisedMsg (e : String) : String :=
  "モデル準備でエラーが発生しました: " ++ e ++ "\nログ保存先: " ++ STARTUP_LOG_PATH

/-- Failure message when the model is still absent after the create. -/
def stillAbsentMsg : String :=
  "モデル準備後も登録確認できませんでした。\nログ保存先: " ++ STARTUP_LOG_PATH

/-- `ensure_model_ready`, line for line: fast success (and marker write) when
the model is already registered; then the bundled-Modelfile existence check;
then the ready-marker guard, which refuses to re-provision; only past all
three does `ollama create` run, with the marker written only when the model
is registered afterwards. -/
def ensure_model_ready (env : ModelEnv) : (Bool × String) × ModelEffects :=
  if MODEL_NAME ∈ env.models then
    ((true, ""), ⟨false, true⟩)
  else if env.modelfileExists = false then
    ((false, bundleMissingMsg), ⟨false, false⟩)
  else if env.readyFlagExists then
    ((false, alreadyAttemptedMsg), ⟨false, false⟩)
  else
    match env.createRun with
    | .error e => ((false, createRaisedMsg e), ⟨true, false⟩)
    | .ok rc =>
        if rc ≠ 0 then
          ((false, createFailedMsg), ⟨true, false⟩)
        else if MODEL_NAME ∈ env.modelsAfter then
          ((true, ""), ⟨true, true⟩)
        else
          ((false, stillAbsentMsg), ⟨true, false⟩)

/-! ## Streaming gateway (`chat`, `chat.gen`, `stream_ollama`) -/

/-- One outbound server-sent event of the gateway's `/api/chat` stream: the
payload of one `data: ...` line — a text delta, the final done signal, or the
terminal error surfaced by the `except` block of `gen`. -/
inductive Ev where
  | text (s : String)
  | done
  | error (e : String)
deriving DecidableEq, Repr

/-- Whether an event terminates the outbound stream (`done` or `error`). -/
def Ev.isTerminal : Ev → Bool
  | .text _ => false
  | .done => true
  | .error _ => true

/-- How many terminal events a stream contains. -/
def terminalCount (evs : List Ev) : Nat :=
  evs.countP (fun e => Ev.isTerminal e)

/-- Strip leading and trailing whitespace from a character list: the
character-level model of Python's `str.strip()` (over the ASCII whitespace
the claims exercise). -/
def stripWs (cs : List Char) : List Char :=
  (((cs.dropWhile Char.isWhitespace).reverse).dropWhile Char.isWhitespace).reverse

/-- Python's `str.strip()` on a string. -/
def pyStrip (s : String) : String :=
  ⟨stripWs s.data⟩

/-- Helper for `pyFloatAccepts`: split a leading run of ASCII digits off a
character list, returning how many digits were consumed and the rest. -/
def splitDigits : List Char → Nat × List Char
  | [] => (0, [])
  | c :: rest =>
      if c.isDigit then
        let (n, r) := splitDigits rest
        (n + 1, r)
      else (0, c :: rest)

/-- Helper for `pyFloatAccepts`: drop one optional leading sign. -/
def stripSign : List Char → List Char
  | '+' :: rest => rest
  | '-' :: rest => rest
  | cs => cs

/-- Helper for `pyFloatAccepts`: an exponent body — optional sign then at
least one digit and nothing else. -/
def expDigits (cs : List Char) : Bool :=
  match splitDigits (stripSign cs) with
  | (n, r) => decide (0 < n) && r.isEmpty

/-- Helper for `pyFloatAccepts`: the optional exponent suffix. -/
def acceptExpTail : List Char → Bool
  | [] => true
  | 'e' :: rest => expDigits rest
  | 'E' :: rest => expDigits rest
  | _ => false

/-- Helper for `pyFloatAccepts`: a decimal literal after the sign — digits
with an optional fractional point (at least one digit overall) and an
optional exponent. -/
def acceptDecimal (cs : List Char) : Bool :=
  match splitDigits cs with
  | (nInt, r1) =>
      match r1 with
      | '.' :: r2 =>
          match splitDigits r2 with
          | (nFrac, r3) => decide (0 < nInt + nFrac) && acceptExpTail r3
      | _ => decide (0 < nInt) && acceptExpTail r1

/-- Helper for `pyFloatAccepts`: the special values `inf`, `infinity`, `nan`,
case-insensitively. -/
def acceptInfNan (cs : List Char) : Bool :=
  let l := cs.map Char.toLower
  l == "inf".toList || l == "infinity".toList || l == "nan".toList

/-- Whether CPython's `float(s)` accepts the string `s`: surrounding
whitespace stripped, an optional sign, then either a special value
(`inf`/`infinity`/`nan`) or a decimal literal with optional fraction and
exponent. (Underscore digit separators, legal in CPython between digits, are
omitted from this model; no claim depends on them.) -/
def pyFloatAccepts (s : String) : Bool :=
  let body := stripSign (stripWs s.data)
  acceptInfNan body || acceptDecimal body

/-- The text of the `ValueError` CPython raises for a malformed float string
(the quotation marks around the offending string are omitted). -/
def pyFloatErrMsg (s : String) : String :=
  "could not convert string to float: " ++ s

/-- The value passed as `gen`'s temperature argument. `float(x or 0.7)` either
uses the literal default `0.7` (when `dbg("temperature")` returned `NULL` /
no row, or the stored string is empty and hence falsy) or parses the stored
string. -/
inductive TempArg where
  | defaultTemp
  | parsed (s : String)
deriving DecidableEq, Repr

/-- Evaluation of `float(dbg("temperature") or 0.7)` given the stored
`temperature` setting (`none` = no row). A malformed non-empty string makes
`float` raise `ValueError` (`.error`), which happens inside `gen`'s `try`
block and before `stream_ollama` is entered (arguments are evaluated before
the call). -/
def tempArg : Option String → Except String TempArg
  | none => .ok .defaultTemp
  | some s =>
      if s = "" then .ok .defaultTemp
      else if pyFloatAccepts s then .ok (.parsed s)
      else .error (pyFloatErrMsg s)

/-- The relay loop of `chat.gen` over the fragments `stream_ollama` yields.
A fragment `(c, d)` is one decoded non-blank NDJSON unit:
`(d.get("message",{}).get("content",""), d.get("done",False))`. `err` models
an exception the backend iteration raises after the listed fragments were
yielded (`none` = the iterator is simply exhausted); an exception raised by
the initial `requests.post` / `raise_for_status` is the case
`frags = []`, `err = some e`. The loop body appends one text event per
fragment (the `done` fragment included), breaks once `done` is true and then
emits the done event; the `except` block turns a pending exception into one
error event. -/
def relay : List (String × Bool) → Option String → List Ev
  | [], none => [.done]
  | [], some e => [.error e]
  | (c, d) :: rest, err =>
      .text c :: (if d then [.done] else relay rest err)

/-- `chat.gen` as a whole: first the temperature argument is evaluated — if
`float` raises, the `except` block emits the single error event and
`stream_ollama` is never entered — otherwise the relay loop runs. Returns the
outbound event list and whether `stream_ollama` (the `POST /api/chat`) was
invoked. -/
def chatGen (stored : Option String) (frags : List (String × Bool))
    (err : Option String) : List Ev × Bool :=
  match tempArg stored with
  | .error e => ([.error e], false)
  | .ok _ => (relay frags err, true)

/-- The parsed body of a `POST /api/chat` request: `d.get("message")` and
`d.get("model")` (`none` = key absent). -/
structure ChatReq where
  message : Option String
  model : Option String
deriving Repr

/-- The world one `chat` request runs against: the probe outcome
`ollama_ok` would observe, the stored `temperature` setting, and the backend
chat stream's behaviour (fragments, then an optional raised exception). -/
structure ChatEnv where
  healthy : HttpOutcome
  temperature : Option String
  frags : List (String × Bool)
  streamErr : Option String
deriving Repr

/-- The gateway's response to one chat request: a JSON error with an HTTP
status code, or the SSE stream of events. -/
inductive ChatResp where
  | clientError (status : Nat) (msg : String)
  | stream (events : List Ev)
deriving DecidableEq, Repr

/-- Which backend endpoints one `chat` request touched: `probeAttempted` is
the `ollama_ok()` health probe (one GET to the backend's `/api/tags` status
endpoint), `chatAttempted` the `stream_ollama` call (`POST /api/chat`). -/
structure BackendCalls where
  probeAttempted : Bool
  chatAttempted : Bool
deriving DecidableEq, Repr

/-- The 400 message of the validation branch. -/
def missingParamMsg : String := "message/model が必要"

/-- The 503 message of the unhealthy branch, carrying the log pointer. -/
def unavailableMsg : String :=
  "Ollama が起動していません。\nログ保存先: " ++ STARTUP_LOG_PATH

/-- The `/api/chat` handler: strip the message, reject with 400 when message
or model is falsy (the empty string), then probe `ollama_ok` and reject with
503 when it fails, else run `gen`. -/
def chat (req : ChatReq) (env : ChatEnv) : ChatResp × BackendCalls :=
  if pyStrip (req.message.getD "") = "" ∨ req.model.getD "" = "" then
    (.clientError 400 missingParamMsg, ⟨false, false⟩)
  else if ollama_ok env.healthy then
    let (evs, invoked) := chatGen env.temperature env.frags env.streamErr
    (.stream evs, ⟨true, invoked⟩)
  else
    (.clientError 503 unavailableMsg, ⟨true, false⟩)

/-! ## Concrete environments used by witnesses and counterexamples -/

/-- A run where `ollama` is absent, `brew` is present, the setup marker is
already on disk from a previous run, and `brew install` completes with exit
code 1 without making `ollama` appear. -/
def envMarkerPresent : InstallEnv :=
  { ollamaOnPath := false, brewOnPath := true, setupFlagExists := true,
    brewRun := .ok (1, false) }

/-- A run where the `brew install` subprocess raises
(`subprocess.TimeoutExpired`). -/
def envBrewRaises : InstallEnv :=
  { ollamaOnPath := false, brewOnPath := true, setupFlagExists := false,
    brewRun := .error "TimeoutExpired" }

/-- A run where the `brew install` subprocess returns with exit code 1. -/
def envBrewFails : InstallEnv :=
  { ollamaOnPath := false, brewOnPath := true, setupFlagExists := false,
    brewRun := .ok (1, false) }

/-- The ready marker exists from a previous run and the target model is still
absent from the registry; the bundled Modelfile is present and a create run
would even succeed — but must not happen. -/
def envModelBlocked : ModelEnv :=
  { models := [], modelfileExists := true, readyFlagExists := true,
    createRun := .ok 0, modelsAfter := [ MODEL_NAME ] }

/-- A request whose message is the empty string. -/
def reqEmptyMsg : ChatReq := { message := some "", model := some "m" }

/-- A well-formed request. -/
def reqValid : ChatReq := { message := some "hello", model := some "m" }

/-- A healthy world with defaulted settings and an empty backend stream. -/
def envHealthy : ChatEnv :=
  { healthy := .response 200, temperature := none, frags := [], streamErr := none }

/-- A world where the probe's GET raises (backend down). -/
def envDown : ChatEnv :=
  { healthy := .raised "ConnectionError", temperature := some "0.7",
    frags := [], streamErr := none }

/-- A healthy world whose stored temperature is the malformed string "abc". -/
def envBadTemp : ChatEnv :=
  { healthy := .response 200, temperature := some "abc",
    frags := [("hi", true)], streamErr := none }

/-! ## Helper lemmas -/

/-- Relaying fragments that all carry `done = false` prepends one text event
per fragment, in order, to whatever the rest of the stream relays to. -/
theorem relay_append_of_no_done (fs tl : List (String × Bool)) (err : Option String) :
    (∀ p ∈ fs, p.2 = false) →
    relay (fs ++ tl) err = fs.map (fun p => Ev.text p.1) ++ relay tl err := by
  induction fs with
  | nil => intro _; simp
  | cons p rest ih =>
      intro h
      obtain ⟨c, d⟩ := p
      have hd : d = false := h (c, d) (List.mem_cons_self _ _)
      subst hd
      simp [relay, ih (fun q hq => h q (List.mem_cons_of_mem _ hq))]

/-- Every relayed stream is a block of text events followed by one terminal
event. -/
theorem relay_split (frags : List (String × Bool)) (err : Option String) :
    ∃ (ts : List String) (t : Ev),
      relay frags err = ts.map Ev.text ++ [t] ∧ Ev.isTerminal t = true := by
  induction frags with
  | nil =>
      cases err with
      | none => exact ⟨[], .done, rfl, rfl⟩
      | some e => exact ⟨[], .error e, rfl, rfl⟩
  | cons p rest ih =>
      obtain ⟨c, d⟩ := p
      cases d with
      | true => exact ⟨[c], .done, rfl, rfl⟩
      | false =>
          obtain ⟨ts, t, h1, h2⟩ := ih
          exact ⟨c :: ts, t, by simp [relay, h1], h2⟩

/-- Text events are not terminal, so a block of them counts zero. -/
theorem countP_isTerminal_map_text (ts : List String) :
    (ts.map Ev.text).countP (fun e => Ev.isTerminal e) = 0 := by
  induction ts with
  | nil => rfl
  | cons s rest ih => simp [List.countP_cons, Ev.isTerminal, ih]

/-! ## Claim theorems -/

/-- C1 (code bug in the source): `ensure_ollama_installed` never reads
`OLLAMA_SETUP_FLAG` — the run's outcome and effects are identical whether or
not the marker exists — and concretely, in a restart where the marker is
already on disk, `ollama` is absent and `brew` is present, the automatic
`brew install` subprocess is invoked again. The marker is written (inside the
install branch) but consulted nowhere, so it cannot bound the number of
automatic install attempts across process restarts. -/
theorem install_marker_never_read (env : InstallEnv) (b : Bool) :
    ensure_ollama_installed { env with setupFlagExists := b }
      = ensure_ollama_installed env
    ∧ (ensure_ollama_installed envMarkerPresent).2.brewInstallAttempted = true := by
  constructor
  · cases env with
    | mk o br fl run => rfl
  · rfl

/-- C2: the relay re-emits one text event per backend fragment in exactly the
arrival order (no reordering, no coalescing), then the done event once the
backend reports completion; for the fragments "Hel", "lo" with done flagged
on the final fragment, the outbound stream is exactly
text "Hel", text "lo", done. -/
theorem chat_relay_preserves_order (fs : List (String × Bool)) (s : String)
    (err : Option String) (h : ∀ p ∈ fs, p.2 = false) :
    (chatGen none (fs ++ [(s, true)]) err).1
      = fs.map (fun p => Ev.text p.1) ++ [Ev.text s, Ev.done]
    ∧ (chatGen none [("Hel", false), ("lo", true)] none).1
      = [Ev.text "Hel", Ev.text "lo", Ev.done] := by
  refine ⟨?_, rfl⟩
  show relay (fs ++ [(s, true)]) err = _
  rw [relay_append_of_no_done fs [(s, true)] err h]
  rfl

/-- Witness for C2 at the spec's own example. -/
theorem chat_relay_preserves_order_witness :
    (chatGen none ([("Hel", false)] ++ [("lo", true)]) none).1
      = [("Hel", false)].map (fun p => Ev.text p.1) ++ [Ev.text "lo", Ev.done]
    ∧ (chatGen none [("Hel", false), ("lo", true)] none).1
      = [Ev.text "Hel", Ev.text "lo", Ev.done] :=
  chat_relay_preserves_order [("Hel", false)] "lo" none (by decide)

/-- C3: every outbound stream the generator produces — whatever the stored
temperature, the backend fragments, and whether or not the backend iteration
raises — contains exactly one terminal event, and it is the last event of the
stream (so the stream never ends with neither done nor error, and never hangs
open after the terminal event); moreover, when the backend raises mid-flight
after fragments none of which carried done, the stream is exactly the relayed
text events followed by one error event. -/
theorem chat_stream_exactly_one_terminal (stored : Option String)
    (frags : List (String × Bool)) (err : Option String) :
    (terminalCount (chatGen stored frags err).1 = 1
      ∧ ∃ t, ((chatGen stored frags err).1).getLast? = some t
          ∧ Ev.isTerminal t = true)
    ∧ (∀ e, (∀ p ∈ frags, p.2 = false) →
        (chatGen none frags (some e)).1
          = frags.map (fun p => Ev.text p.1) ++ [Ev.error e]) := by
  constructor
  · have key : ∃ (ts : List String) (t : Ev),
        (chatGen stored frags err).1 = ts.map Ev.text ++ [t]
          ∧ Ev.isTerminal t = true := by
      unfold chatGen
      cases hta : tempArg stored with
      | error e => exact ⟨[], .error e, rfl, rfl⟩
      | ok v => exact relay_split frags err
    obtain ⟨ts, t, h1, h2⟩ := key
    rw [h1]
    refine ⟨?_, t, ?_, h2⟩
    · unfold terminalCount
      rw [List.countP_append, countP_isTerminal_map_text]
      simp [List.countP_cons, h2]
    · exact List.getLast?_concat (List.map Ev.text ts)
  · intro e h
    show relay frags (some e) = _
    have h2 := relay_append_of_no_done frags [] (some e) h
    rw [List.append_nil] at h2
    rw [h2]
    rfl

/-- C4: when the ready marker already exists and the model is still absent
from the registry, `ensure_model_ready` returns a structured failure and the
`ollama create` build command is not invoked. -/
theorem model_marker_blocks_reprovision (env : ModelEnv)
    (hflag : env.readyFlagExists = true) (habs : MODEL_NAME ∉ env.models) :
    (ensure_model_ready env).1.1 = false
    ∧ (ensure_model_ready env).2.createInvoked = false := by
  cases hmf : env.modelfileExists <;>
    simp [ensure_model_ready, habs, hflag, hmf]

/-- Witness for C4: marker present, model absent, Modelfile present, a create
run that would even succeed — still refused without invoking create. -/
theorem model_marker_blocks_reprovision_witness :
    (ensure_model_ready envModelBlocked).1.1 = false
    ∧ (ensure_model_ready envModelBlocked).2.createInvoked = false :=
  model_marker_blocks_reprovision envModelBlocked rfl (by simp [envModelBlocked])

/-- C5 counterexample: when the `brew install` subprocess raises (for example
`subprocess.TimeoutExpired` from the 1-hour timeout), the exception skips the
flag write and jumps to the `except` block — the install was attempted but
`OLLAMA_SETUP_FLAG` is not written, contradicting "written unconditionally
... including when the subprocess invocation raises an exception or times
out". -/
theorem install_marker_skipped_on_raise :
    (ensure_ollama_installed envBrewRaises).2
      = { brewInstallAttempted := true, setupFlagWritten := false,
          browserOpened := true } := rfl

/-- C5 amended: whenever the installer attempts the automatic package-manager
install, the marker is written exactly when the install subprocess returns
(success or nonzero exit code alike — the write precedes the returncode
test); it is not written when the subprocess invocation raises, e.g. on
timeout. -/
theorem install_marker_written_iff_subprocess_returns (env : InstallEnv)
    (h0 : env.ollamaOnPath = false) (h1 : env.brewOnPath = true) :
    (ensure_ollama_installed env).2.brewInstallAttempted = true
    ∧ ((ensure_ollama_installed env).2.setupFlagWritten = true
        ↔ ∃ r, env.brewRun = .ok r) := by
  cases henv : env.brewRun with
  | ok r =>
      obtain ⟨rc, after⟩ := r
      by_cases hra : rc = 0 ∧ after = true <;>
        simp [ensure_ollama_installed, h0, h1, henv, hra]
  | error e => simp [ensure_ollama_installed, h0, h1, henv]

/-- Witness for C5's amended claim: `brew install` returns exit code 1 and
the flag is written. -/
theorem install_marker_written_iff_subprocess_returns_witness :
    (ensure_ollama_installed envBrewFails).2.brewInstallAttempted = true
    ∧ ((ensure_ollama_installed envBrewFails).2.setupFlagWritten = true
        ↔ ∃ r, envBrewFails.brewRun = .ok r) :=
  install_marker_written_iff_subprocess_returns envBrewFails rfl rfl

/-- C6 counterexample: `ollama_ok` never calls `raise_for_status`, so a
completed response with HTTP status 500 — a non-success status — still yields
`True`, contradicting "returns false ... when the backend responds with a
non-success HTTP status". -/
theorem health_check_true_on_server_error :
    ollama_ok (.response 500) = true := rfl

/-- C6 amended: `ollama_ok` never raises to its caller and returns false
exactly when the GET to the status endpoint fails at the network level
(raises); any completed HTTP response, whatever its status code, yields
true. -/
theorem health_check_classification (e : String) (s : Nat) :
    ollama_ok (.raised e) = false ∧ ollama_ok (.response s) = true :=
  ⟨rfl, rfl⟩

/-- C7: a request whose stripped message is empty or whose model is missing
(both default to the falsy empty string) is rejected with the 400 validation
response, and neither the health probe nor the backend chat endpoint is
touched. -/
theorem chat_validation_rejects_without_backend_call (req : ChatReq) (env : ChatEnv)
    (h : pyStrip (req.message.getD "") = "" ∨ req.model.getD "" = "") :
    (chat req env).1 = .clientError 400 missingParamMsg
    ∧ (chat req env).2.probeAttempted = false
    ∧ (chat req env).2.chatAttempted = false := by
  unfold chat
  rw [if_pos h]
  exact ⟨rfl, rfl, rfl⟩

/-- Witness for C7: an empty message against a healthy backend. -/
theorem chat_validation_rejects_without_backend_call_witness :
    (chat reqEmptyMsg envHealthy).1 = .clientError 400 missingParamMsg
    ∧ (chat reqEmptyMsg envHealthy).2.probeAttempted = false
    ∧ (chat reqEmptyMsg envHealthy).2.chatAttempted = false :=
  chat_validation_rejects_without_backend_call reqEmptyMsg envHealthy (Or.inl rfl)

/-- C8 counterexample: on a well-formed request with the backend down, the
gateway does reach out to the backend once — `ollama_ok()` issues one GET to
the backend's status endpoint before the 503 is returned — so "makes zero
calls to the backend" is not literally true of the code. -/
theorem chat_unhealthy_probe_attempted :
    (chat reqValid envDown).2.probeAttempted = true := rfl

/-- C8 amended: a well-formed request issued while the backend is unhealthy
yields the 503 service-unavailable response carrying the log-file pointer,
and the backend's chat endpoint is never called; the single health-probe GET
used to detect unhealthiness is the only backend interaction. -/
theorem chat_unhealthy_503_no_chat_call (req : ChatReq) (env : ChatEnv)
    (hv : ¬(pyStrip (req.message.getD "") = "" ∨ req.model.getD "" = ""))
    (hh : ollama_ok env.healthy = false) :
    (∃ pre, (chat req env).1 = .clientError 503 (pre ++ STARTUP_LOG_PATH))
    ∧ (chat req env).2.chatAttempted = false
    ∧ (chat req env).2.probeAttempted = true := by
  unfold chat
  rw [if_neg hv, if_neg (by simp [hh])]
  exact ⟨⟨"Ollama が起動していません。\nログ保存先: ", rfl⟩, rfl, rfl⟩

/-- Witness for C8's amended claim. -/
theorem chat_unhealthy_503_no_chat_call_witness :
    (∃ pre, (chat reqValid envDown).1 = .clientError 503 (pre ++ STARTUP_LOG_PATH))
    ∧ (chat reqValid envDown).2.chatAttempted = false
    ∧ (chat reqValid envDown).2.probeAttempted = true :=
  chat_unhealthy_503_no_chat_call reqValid envDown (by decide) rfl

/-- C9 counterexample: with the stored temperature "abc" (malformed,
non-empty), `float("abc")` raises inside `gen`'s try block, so the chat
request's stream is the single error event and the backend chat endpoint is
never invoked — a malformed stored temperature does turn the chat request
into an error instead of falling back to the default. -/
theorem chat_malformed_temperature_turns_into_error :
    (chat reqValid envBadTemp).1 = .stream [Ev.error (pyFloatErrMsg "abc")]
    ∧ (chat reqValid envBadTemp).2.chatAttempted = false :=
  ⟨rfl, rfl⟩

/-- C9 amended: the 0.7 default is applied when the stored temperature is
absent or the empty string (both falsy under `or`); a malformed non-empty
stored value makes the float conversion raise, which is caught and emitted as
the stream's single terminal error event, without the backend chat call being
made. -/
theorem chat_temperature_default_or_error (s : String)
    (hbad : pyFloatAccepts s = false) (hne : s ≠ "") :
    tempArg none = .ok .defaultTemp
    ∧ tempArg (some "") = .ok .defaultTemp
    ∧ tempArg (some s) = .error (pyFloatErrMsg s)
    ∧ (chatGen (some s) [] none).1 = [Ev.error (pyFloatErrMsg s)]
    ∧ (chatGen (some s) [] none).2 = false := by
  have h3 : tempArg (some s) = .error (pyFloatErrMsg s) := by
    simp [tempArg, hne, hbad]
  refine ⟨rfl, rfl, h3, ?_, ?_⟩ <;> simp [chatGen, h3]

/-- Witness for C9's amended claim at the malformed value "abc". -/
theorem chat_temperature_default_or_error_witness :
    tempArg none = .ok .defaultTemp
    ∧ tempArg (some "") = .ok .defaultTemp
    ∧ tempArg (some "abc") = .error (pyFloatErrMsg "abc")
    ∧ (chatGen (some "abc") [] none).1 = [Ev.error (pyFloatErrMsg "abc")]
    ∧ (chatGen (some "abc") [] none).2 = false :=
  chat_temperature_default_or_error "abc" (by decide) (by decide)

/-- C10: when the backend fragment stream ends without raising and without
any fragment carrying done = true (a truncated backend response), the
generator still emits the final done event after relaying every text
fragment — at the outbound boundary the stream looks exactly like a completed
one. -/
theorem chat_truncated_stream_still_done (frags : List (String × Bool))
    (h : ∀ p ∈ frags, p.2 = false) :
    (chatGen none frags none).1
      = frags.map (fun p => Ev.text p.1) ++ [Ev.done] := by
  show relay frags none = _
  have h2 := relay_append_of_no_done frags [] none h
  rw [List.append_nil] at h2
  rw [h2]
  rfl

/-- Witness for C10: two text fragments, no done flag, no exception. -/
theorem chat_truncated_stream_still_done_witness :
    (chatGen none [("par", false), ("tial", false)] none).1
      = [("par", false), ("tial", false)].map (fun p => Ev.text p.1) ++ [Ev.done] :=
  chat_truncated_stream_still_done [("par", false), ("tial", false)] (by decide)

end NexusPro
